import Mathlib

/-!
Shallow embedding of the primitive intersection library of the CUDA path
tracer (files src/intersections.h and src/sceneStructs.h).

Float arithmetic is idealised as real arithmetic.  IEEE division by zero,
which the source relies on in the slab test of boxIntersectionTest (the
guard on q.direction[xyz] is commented out), is modelled by the function
fdiv: for a nonzero numerator, x / 0 is IEEE plus or minus infinity, which
we model by the surrogate constant INF_F, chosen strictly larger than every
finite value the source ever compares such a quotient against (the slab
seeds 1e38 and the sentinel 10000.0); 0 / 0 (IEEE NaN) is modelled as 0.
Fields that the source leaves uninitialised and never reads before writing
(the spare Ray fields of local rays, the slab normals before first
assignment) are modelled as zero.
-/

namespace PathTracer

noncomputable section

/-- glm vec3 over idealised reals. -/
structure Vec3 where
  x : ℝ
  y : ℝ
  z : ℝ

/-- glm vec4 over idealised reals. -/
structure Vec4 where
  x : ℝ
  y : ℝ
  z : ℝ
  w : ℝ

/-- glm mat4, stored as its four columns (glm is column-major). -/
structure Mat4 where
  c0 : Vec4
  c1 : Vec4
  c2 : Vec4
  c3 : Vec4

instance : Add Vec3 := ⟨fun a b => ⟨a.x + b.x, a.y + b.y, a.z + b.z⟩⟩

instance : Sub Vec3 := ⟨fun a b => ⟨a.x - b.x, a.y - b.y, a.z - b.z⟩⟩

instance : SMul ℝ Vec3 := ⟨fun t v => ⟨t * v.x, t * v.y, t * v.z⟩⟩

/-- Surrogate for IEEE float infinity: any value strictly larger than every
finite constant the intersection code compares against (1e38 and 10000). -/
def INF_F : ℝ := 1e39

/-- Float division as the source executes it: for a zero denominator IEEE
yields plus or minus infinity (modelled by INF_F) for a nonzero numerator,
and NaN (modelled here as 0) for 0 / 0. -/
def fdiv (a b : ℝ) : ℝ :=
  if b = 0 then (if a < 0 then -INF_F else if 0 < a then INF_F else 0) else a / b

/-- glm dot product. -/
def Vec3.dot (a b : Vec3) : ℝ := a.x * b.x + a.y * b.y + a.z * b.z

/-- glm cross product. -/
def Vec3.cross (a b : Vec3) : Vec3 :=
  ⟨a.y * b.z - a.z * b.y, a.z * b.x - a.x * b.z, a.x * b.y - a.y * b.x⟩

/-- glm length: the euclidean norm. -/
def Vec3.length (v : Vec3) : ℝ := Real.sqrt (Vec3.dot v v)

/-- glm normalize: v divided componentwise by its length (fdiv models the
IEEE behaviour on the zero vector). -/
def Vec3.normalize (v : Vec3) : Vec3 :=
  ⟨fdiv v.x (Vec3.length v), fdiv v.y (Vec3.length v), fdiv v.z (Vec3.length v)⟩

/-- Component access v[i] of a glm vec3. -/
def Vec3.nth (v : Vec3) (i : Fin 3) : ℝ :=
  if i = 0 then v.x else if i = 1 then v.y else v.z

/-- Component assignment v[i] = a of a glm vec3. -/
def Vec3.setNth (v : Vec3) (i : Fin 3) (a : ℝ) : Vec3 :=
  if i = 0 then ⟨a, v.y, v.z⟩ else if i = 1 then ⟨v.x, a, v.z⟩ else ⟨v.x, v.y, a⟩

/-- Extend a vec3 by a w component, as in glm::vec4(v, w). -/
def vec4of (v : Vec3) (w : ℝ) : Vec4 := ⟨v.x, v.y, v.z, w⟩

/-- glm mat4 times vec4 (columns weighted by the vector's components). -/
def Mat4.mulVec (m : Mat4) (v : Vec4) : Vec4 :=
  ⟨m.c0.x * v.x + m.c1.x * v.y + m.c2.x * v.z + m.c3.x * v.w,
   m.c0.y * v.x + m.c1.y * v.y + m.c2.y * v.z + m.c3.y * v.w,
   m.c0.z * v.x + m.c1.z * v.y + m.c2.z * v.z + m.c3.z * v.w,
   m.c0.w * v.x + m.c1.w * v.y + m.c2.w * v.z + m.c3.w * v.w⟩

/-- multiplyMV of intersections.h: multiply a mat4 and a vec4 and clip the
result to a vec3. -/
def multiplyMV (m : Mat4) (v : Vec4) : Vec3 :=
  ⟨(Mat4.mulVec m v).x, (Mat4.mulVec m v).y, (Mat4.mulVec m v).z⟩

/-- GeomType of sceneStructs.h. -/
inductive GeomType where
  | SPHERE
  | CUBE
  | SQUAREPLANE
  | MESH
  | TRI

/-- Ray of sceneStructs.h (direction_inv and ray_dir_sign are carried but
never read by the intersection tests). -/
structure Ray where
  origin : Vec3
  direction : Vec3
  direction_inv : Vec3
  ray_dir_sign : ℤ × ℤ × ℤ

/-- Geom of sceneStructs.h. -/
structure Geom where
  gtype : GeomType
  materialid : ℤ
  translation : Vec3
  rotation : Vec3
  scale : Vec3
  transform : Mat4
  inverseTransform : Mat4
  invTranspose : Mat4

/-- Vec2 for the Tri uv fields. -/
structure Vec2 where
  x : ℝ
  y : ℝ

/-- Tri of sceneStructs.h. -/
structure Tri where
  p0 : Vec3
  p1 : Vec3
  p2 : Vec3
  n0 : Vec3
  n1 : Vec3
  n2 : Vec3
  t0 : Vec2
  t1 : Vec2
  t2 : Vec2
  plane_normal : Vec3
  S : ℝ
  mat_ID : ℤ

/-- MIN_INTERSECT_DIST of intersections.h. -/
def MIN_INTERSECT_DIST : ℝ := 0.0001

/-- MAX_INTERSECT_DIST of intersections.h. -/
def MAX_INTERSECT_DIST : ℝ := 10000.0

/-- getPointOnRay of intersections.h: the point at parameter t on ray r
(the source normalizes the direction again here). -/
def getPointOnRay (r : Ray) (t : ℝ) : Vec3 :=
  r.origin + t • Vec3.normalize r.direction

/-- The local ray q each Geom test builds: origin and direction mapped by the
instance's inverse transform (direction normalized); the spare Ray fields
are uninitialised and unread in the source, modelled as zero. -/
def worldToLocalRay (g : Geom) (r : Ray) : Ray :=
  { origin := multiplyMV g.inverseTransform (vec4of r.origin 1),
    direction := Vec3.normalize (multiplyMV g.inverseTransform (vec4of r.direction 0)),
    direction_inv := ⟨0, 0, 0⟩,
    ray_dir_sign := (0, 0, 0) }

/-- A local-space point mapped back to world space with the instance's
transform matrix. -/
def localPointToWorld (g : Geom) (p : Vec3) : Vec3 :=
  multiplyMV g.transform (vec4of p 1)

/-- A local-space direction mapped back to world space with the instance's
inverse-transpose matrix, normalized (as every Geom test does). -/
def localNormalToWorld (g : Geom) (v : Vec3) : Vec3 :=
  Vec3.normalize (multiplyMV g.invTranspose (vec4of v 0))

/-- The plane parameter t of squareplaneIntersectionTest, computed on the
local ray (fdiv models the source's float division). -/
def squareplaneT (g : Geom) (r : Ray) : ℝ :=
  let q := worldToLocalRay g r
  fdiv (Vec3.dot ⟨0, 0, 1⟩ (Vec3.mk 0.5 0.5 0 - q.origin)) (Vec3.dot ⟨0, 0, 1⟩ q.direction)

/-- squareplaneIntersectionTest of intersections.h.  The returned pair is
(return value, final value of the by-reference normal argument). -/
def squareplaneIntersectionTest (squareplane : Geom) (r : Ray) (normal : Vec3) : ℝ × Vec3 :=
  let q := worldToLocalRay squareplane r
  let t := squareplaneT squareplane r
  let objspaceIntersection := getPointOnRay q t
  if t > 0.0001 ∧ objspaceIntersection.x ≥ -0.5001 ∧ objspaceIntersection.x ≤ 0.5001 ∧
      objspaceIntersection.y ≥ -0.5001 ∧ objspaceIntersection.y ≤ 0.5001 then
    let intersectionPoint := multiplyMV squareplane.transform (vec4of objspaceIntersection 1)
    (Vec3.length (r.origin - intersectionPoint),
     Vec3.normalize (multiplyMV squareplane.invTranspose ⟨0, 0, 1, 0⟩))
  else
    (MAX_INTERSECT_DIST, normal)

/-- Running slab state of boxIntersectionTest: tmin, tmax and their
associated face normals. -/
structure SlabState where
  tmin : ℝ
  tmax : ℝ
  tmin_n : Vec3
  tmax_n : Vec3

/-- One iteration of the slab loop of boxIntersectionTest over axis xyz
(the source's guard on q.direction[xyz] is commented out, so the divisions
run unconditionally; fdiv models them). -/
def slabStep (q : Ray) (st : SlabState) (xyz : Fin 3) : SlabState :=
  let qdxyz := Vec3.nth q.direction xyz
  let t1 := fdiv (-0.5 - Vec3.nth q.origin xyz) qdxyz
  let t2 := fdiv (0.5 - Vec3.nth q.origin xyz) qdxyz
  let ta := min t1 t2
  let tb := max t1 t2
  let n := Vec3.setNth ⟨0, 0, 0⟩ xyz (if t2 < t1 then 1 else -1)
  let st1 := if ta > 0 ∧ ta > st.tmin then { st with tmin := ta, tmin_n := n } else st
  if tb < st1.tmax then { st1 with tmax := tb, tmax_n := n } else st1

/-- The slab loop of boxIntersectionTest run over the three axes, from the
seeds tmin = -1e38, tmax = 1e38 (normals uninitialised, modelled zero). -/
def boxSlabs (q : Ray) : SlabState :=
  slabStep q (slabStep q (slabStep q ⟨-1e38, 1e38, ⟨0, 0, 0⟩, ⟨0, 0, 0⟩⟩ 0) 1) 2

/-- boxIntersectionTest of intersections.h.  The returned pair is
(return value, final value of the by-reference normal argument). -/
def boxIntersectionTest (box : Geom) (r : Ray) (normal : Vec3) : ℝ × Vec3 :=
  let q := worldToLocalRay box r
  let st := boxSlabs q
  if st.tmax ≥ st.tmin ∧ st.tmax > 0 then
    let tmin := if st.tmin ≤ 0 then st.tmax else st.tmin
    let tmin_n := if st.tmin ≤ 0 then st.tmax_n else st.tmin_n
    let intersectionPoint := multiplyMV box.transform (vec4of (getPointOnRay q tmin) 1)
    (Vec3.length (r.origin - intersectionPoint),
     Vec3.normalize (multiplyMV box.invTranspose (vec4of tmin_n 0)))
  else
    (MAX_INTERSECT_DIST, normal)

/-- vDotDirection of sphereIntersectionTest: the dot product of the local
ray's origin and direction. -/
def sphereB (g : Geom) (r : Ray) : ℝ :=
  Vec3.dot (worldToLocalRay g r).origin (worldToLocalRay g r).direction

/-- radicand of sphereIntersectionTest (radius is the canonical 0.5). -/
def sphereRadicand (g : Geom) (r : Ray) : ℝ :=
  sphereB g r * sphereB g r -
    (Vec3.dot (worldToLocalRay g r).origin (worldToLocalRay g r).origin - (0.5 : ℝ) ^ 2)

/-- The root t1 = -vDotDirection + sqrt(radicand) of sphereIntersectionTest. -/
def sphereT1 (g : Geom) (r : Ray) : ℝ :=
  -sphereB g r + Real.sqrt (sphereRadicand g r)

/-- The root t2 = -vDotDirection - sqrt(radicand) of sphereIntersectionTest. -/
def sphereT2 (g : Geom) (r : Ray) : ℝ :=
  -sphereB g r - Real.sqrt (sphereRadicand g r)

/-- sphereIntersectionTest of intersections.h.  The returned pair is
(return value, final value of the by-reference normal argument). -/
def sphereIntersectionTest (sphere : Geom) (r : Ray) (normal : Vec3) : ℝ × Vec3 :=
  let rt := worldToLocalRay sphere r
  if sphereRadicand sphere r < 0 then
    (MAX_INTERSECT_DIST, normal)
  else
    let t1 := sphereT1 sphere r
    let t2 := sphereT2 sphere r
    if t1 < 0 ∧ t2 < 0 then
      (MAX_INTERSECT_DIST, normal)
    else
      let t := if t1 > 0 ∧ t2 > 0 then min t1 t2 else max t1 t2
      let objspaceIntersection := getPointOnRay rt t
      let intersectionPoint := multiplyMV sphere.transform (vec4of objspaceIntersection 1)
      (Vec3.length (r.origin - intersectionPoint),
       Vec3.normalize (multiplyMV sphere.invTranspose (vec4of objspaceIntersection 0)))

/-- The plane parameter t of triIntersectionTest, computed directly on the
world-space ray (the direction is used unnormalized, as in the source). -/
def triT (tri : Tri) (r : Ray) : ℝ :=
  fdiv (Vec3.dot tri.plane_normal (tri.p0 - r.origin)) (Vec3.dot tri.plane_normal r.direction)

/-- The candidate point P = origin + t * direction of triIntersectionTest. -/
def triP (tri : Tri) (r : Ray) : Vec3 :=
  r.origin + triT tri r • r.direction

/-- The total area S of the triangle as triIntersectionTest recomputes it
(the stored Tri.S field is shadowed by this local in the source). -/
def triArea (tri : Tri) : ℝ :=
  0.5 * Vec3.length (Vec3.cross (tri.p0 - tri.p1) (tri.p0 - tri.p2))

/-- Barycentric weight s1 of triIntersectionTest (sub-triangle area opposite
p0 over the total area, by fdiv as the source divides). -/
def triS1 (tri : Tri) (r : Ray) : ℝ :=
  fdiv (0.5 * Vec3.length (Vec3.cross (triP tri r - tri.p1) (triP tri r - tri.p2))) (triArea tri)

/-- Barycentric weight s2 of triIntersectionTest. -/
def triS2 (tri : Tri) (r : Ray) : ℝ :=
  fdiv (0.5 * Vec3.length (Vec3.cross (triP tri r - tri.p2) (triP tri r - tri.p0))) (triArea tri)

/-- Barycentric weight s3 of triIntersectionTest. -/
def triS3 (tri : Tri) (r : Ray) : ℝ :=
  fdiv (0.5 * Vec3.length (Vec3.cross (triP tri r - tri.p0) (triP tri r - tri.p1))) (triArea tri)

/-- The acceptance condition of triIntersectionTest: every barycentric
weight within [0, 1] and the weights summing to exactly 1. -/
def triAccept (tri : Tri) (r : Ray) : Prop :=
  triS1 tri r ≥ 0 ∧ triS1 tri r ≤ 1 ∧ triS2 tri r ≥ 0 ∧ triS2 tri r ≤ 1 ∧
    triS3 tri r ≥ 0 ∧ triS3 tri r ≤ 1 ∧ triS1 tri r + triS2 tri r + triS3 tri r = 1

instance (tri : Tri) (r : Ray) : Decidable (triAccept tri r) := by
  unfold triAccept; infer_instance

/-- triIntersectionTest of intersections.h.  The returned pair is
(return value, final value of the by-reference normal argument). -/
def triIntersectionTest (tri : Tri) (r : Ray) (normal : Vec3) : ℝ × Vec3 :=
  let t := triT tri r
  if t < 0 then (t, normal)
  else if triAccept tri r then (t, tri.plane_normal)
  else (-1, normal)

/-- The condition under which sphereIntersectionTest takes a miss branch
(negative radicand, or both roots negative). -/
def sphereMiss (g : Geom) (r : Ray) : Prop :=
  sphereRadicand g r < 0 ∨ (sphereT1 g r < 0 ∧ sphereT2 g r < 0)

/-- The condition under which boxIntersectionTest takes its miss branch. -/
def boxMiss (g : Geom) (r : Ray) : Prop :=
  (boxSlabs (worldToLocalRay g r)).tmax < (boxSlabs (worldToLocalRay g r)).tmin ∨
    (boxSlabs (worldToLocalRay g r)).tmax ≤ 0

/-- The local-space candidate point of squareplaneIntersectionTest. -/
def squareplaneP (g : Geom) (r : Ray) : Vec3 :=
  getPointOnRay (worldToLocalRay g r) (squareplaneT g r)

/-- The acceptance condition of squareplaneIntersectionTest, phrased as the
spec does: t beyond the minimum-distance epsilon and the local hit within
the canonical unit square inflated to 0.5001 on each side. -/
def squareplaneAccept (g : Geom) (r : Ray) : Prop :=
  squareplaneT g r > 0.0001 ∧ |(squareplaneP g r).x| ≤ 0.5001 ∧ |(squareplaneP g r).y| ≤ 0.5001

/-- The condition under which triIntersectionTest reports no hit (negative
plane parameter, or a failed barycentric check). -/
def triMiss (tri : Tri) (r : Ray) : Prop :=
  triT tri r < 0 ∨ ¬ triAccept tri r

/-- The canonical-sphere solve of sphereIntersectionTest on a local-space
ray, as an optional local parameter t: exactly the quadratic, discriminant
test and root selection of the source, with the transforms factored out. -/
def sphereLocalT (q : Ray) : Option ℝ :=
  let b := Vec3.dot q.origin q.direction
  let radicand := b * b - (Vec3.dot q.origin q.origin - (0.5 : ℝ) ^ 2)
  if radicand < 0 then none
  else
    let t1 := -b + Real.sqrt radicand
    let t2 := -b - Real.sqrt radicand
    if t1 < 0 ∧ t2 < 0 then none
    else some (if t1 > 0 ∧ t2 > 0 then min t1 t2 else max t1 t2)

/-- The canonical-box slab solve of boxIntersectionTest on a local-space
ray, as an optional local parameter and local face normal. -/
def boxLocalSolve (q : Ray) : Option (ℝ × Vec3) :=
  let st := boxSlabs q
  if st.tmax ≥ st.tmin ∧ st.tmax > 0 then
    some (if st.tmin ≤ 0 then st.tmax else st.tmin,
          if st.tmin ≤ 0 then st.tmax_n else st.tmin_n)
  else none

/-- The canonical-square solve of squareplaneIntersectionTest on a
local-space ray, as an optional local intersection point. -/
def squareplaneLocalSolve (q : Ray) : Option Vec3 :=
  let t := fdiv (Vec3.dot ⟨0, 0, 1⟩ (Vec3.mk 0.5 0.5 0 - q.origin)) (Vec3.dot ⟨0, 0, 1⟩ q.direction)
  let p := getPointOnRay q t
  if t > 0.0001 ∧ p.x ≥ -0.5001 ∧ p.x ≤ 0.5001 ∧ p.y ≥ -0.5001 ∧ p.y ≤ 0.5001 then
    some p
  else none

/-- Modelled from the spec (section 4.1): a triangle test that follows the
transform contract the spec asserts for every primitive test, including the
triangle one: transform the world ray into the instance's local space via
the inverse transform (direction normalized, as the sibling tests do),
solve the plane and barycentric equations there on the stored triangle
data, and on a hit map the point back with the transform and the normal
back with the inverse-transpose, returning the world-space distance.  The
source's triIntersectionTest takes no instance and performs none of this;
this definition exists to compare the two. -/
def triIntersectionTestSpec (g : Geom) (tri : Tri) (r : Ray) (normal : Vec3) : ℝ × Vec3 :=
  let q := worldToLocalRay g r
  let t := fdiv (Vec3.dot tri.plane_normal (tri.p0 - q.origin))
    (Vec3.dot tri.plane_normal q.direction)
  if t < 0 then (t, normal)
  else
    let P := q.origin + t • q.direction
    let S := 0.5 * Vec3.length (Vec3.cross (tri.p0 - tri.p1) (tri.p0 - tri.p2))
    let s1 := fdiv (0.5 * Vec3.length (Vec3.cross (P - tri.p1) (P - tri.p2))) S
    let s2 := fdiv (0.5 * Vec3.length (Vec3.cross (P - tri.p2) (P - tri.p0))) S
    let s3 := fdiv (0.5 * Vec3.length (Vec3.cross (P - tri.p0) (P - tri.p1))) S
    if s1 ≥ 0 ∧ s1 ≤ 1 ∧ s2 ≥ 0 ∧ s2 ≤ 1 ∧ s3 ≥ 0 ∧ s3 ≤ 1 ∧ s1 + s2 + s3 = 1 then
      (Vec3.length (r.origin - localPointToWorld g P), localNormalToWorld g tri.plane_normal)
    else (-1, normal)

/-- The 4x4 identity matrix. -/
def mat4Id : Mat4 := ⟨⟨1, 0, 0, 0⟩, ⟨0, 1, 0, 0⟩, ⟨0, 0, 1, 0⟩, ⟨0, 0, 0, 1⟩⟩

/-- A geometry instance with identity transforms. -/
def gIdentity : Geom :=
  { gtype := GeomType.SPHERE, materialid := 0, translation := ⟨0, 0, 0⟩,
    rotation := ⟨0, 0, 0⟩, scale := ⟨1, 1, 1⟩,
    transform := mat4Id, inverseTransform := mat4Id, invTranspose := mat4Id }

/-- A geometry instance translated by (0,0,3): transform, inverse and
inverse-transpose of that translation. -/
def gTranslateZ3 : Geom :=
  { gtype := GeomType.MESH, materialid := 0, translation := ⟨0, 0, 3⟩,
    rotation := ⟨0, 0, 0⟩, scale := ⟨1, 1, 1⟩,
    transform := ⟨⟨1, 0, 0, 0⟩, ⟨0, 1, 0, 0⟩, ⟨0, 0, 1, 0⟩, ⟨0, 0, 3, 1⟩⟩,
    inverseTransform := ⟨⟨1, 0, 0, 0⟩, ⟨0, 1, 0, 0⟩, ⟨0, 0, 1, 0⟩, ⟨0, 0, -3, 1⟩⟩,
    invTranspose := ⟨⟨1, 0, 0, 0⟩, ⟨0, 1, 0, 0⟩, ⟨0, 0, 1, -3⟩, ⟨0, 0, 0, 1⟩⟩ }

/-- The right triangle with vertices (0,0,1), (1,0,1), (0,1,1) in the plane
z = 1, with plane normal (0,0,1) and area 1/2. -/
def triUnit : Tri :=
  { p0 := ⟨0, 0, 1⟩, p1 := ⟨1, 0, 1⟩, p2 := ⟨0, 1, 1⟩,
    n0 := ⟨0, 0, 1⟩, n1 := ⟨0, 0, 1⟩, n2 := ⟨0, 0, 1⟩,
    t0 := ⟨0, 0⟩, t1 := ⟨0, 0⟩, t2 := ⟨0, 0⟩,
    plane_normal := ⟨0, 0, 1⟩, S := 0.5, mat_ID := 0 }

/-- A degenerate triangle: two coincident vertices, zero area. -/
def triDegen : Tri :=
  { p0 := ⟨0, 0, 0⟩, p1 := ⟨0, 0, 0⟩, p2 := ⟨1, 0, 0⟩,
    n0 := ⟨0, 0, 1⟩, n1 := ⟨0, 0, 1⟩, n2 := ⟨0, 0, 1⟩,
    t0 := ⟨0, 0⟩, t1 := ⟨0, 0⟩, t2 := ⟨0, 0⟩,
    plane_normal := ⟨0, 0, 1⟩, S := 0, mat_ID := 0 }

/-- Ray from (0,0,-2) toward +z (the spec's analytic sphere example). -/
def raySphereAnalytic : Ray := ⟨⟨0, 0, -2⟩, ⟨0, 0, 1⟩, ⟨0, 0, 0⟩, (0, 0, 0)⟩

/-- Ray from (0,0,-2) toward -z, away from the canonical sphere. -/
def raySphereAway : Ray := ⟨⟨0, 0, -2⟩, ⟨0, 0, -1⟩, ⟨0, 0, 0⟩, (0, 0, 0)⟩

/-- Ray from (2,0,0) toward -x (the spec's analytic box example). -/
def rayBoxAnalytic : Ray := ⟨⟨2, 0, 0⟩, ⟨-1, 0, 0⟩, ⟨0, 0, 0⟩, (0, 0, 0)⟩

/-- Ray from (2,0,0) toward +x, away from the canonical box. -/
def rayBoxAway : Ray := ⟨⟨2, 0, 0⟩, ⟨1, 0, 0⟩, ⟨0, 0, 0⟩, (0, 0, 0)⟩

/-- Ray from the origin toward +z, starting inside the canonical box. -/
def rayBoxInside : Ray := ⟨⟨0, 0, 0⟩, ⟨0, 0, 1⟩, ⟨0, 0, 0⟩, (0, 0, 0)⟩

/-- Ray from (0,0,-1) toward +z, hitting the canonical square plane. -/
def rayPlaneHit : Ray := ⟨⟨0, 0, -1⟩, ⟨0, 0, 1⟩, ⟨0, 0, 0⟩, (0, 0, 0)⟩

/-- Ray from (0,0,1) toward +z, pointing away from the square plane. -/
def rayPlaneAway : Ray := ⟨⟨0, 0, 1⟩, ⟨0, 0, 1⟩, ⟨0, 0, 0⟩, (0, 0, 0)⟩

/-- Ray from (0.2,0.2,0) toward +z, hitting triUnit in its interior. -/
def rayTriHit : Ray := ⟨⟨0.2, 0.2, 0⟩, ⟨0, 0, 1⟩, ⟨0, 0, 0⟩, (0, 0, 0)⟩

/-- Ray toward +z whose plane hit lies just outside the edge of triUnit:
barycentric weights 0.501, 0.001 and 0.5, summing to 1.002. -/
def rayNearEdge : Ray := ⟨⟨-0.001, 0.5, 0⟩, ⟨0, 0, 1⟩, ⟨0, 0, 0⟩, (0, 0, 0)⟩

/-- Ray toward +z whose plane hit (5,5,1) lies far outside triUnit. -/
def rayFarMiss : Ray := ⟨⟨5, 5, 0⟩, ⟨0, 0, 1⟩, ⟨0, 0, 0⟩, (0, 0, 0)⟩

/-- Ray starting on the canonical sphere at (0,0,0.5), leaving it along +z:
the roots are t1 = 0 and t2 = -1. -/
def rayGraze : Ray := ⟨⟨0, 0, 0.5⟩, ⟨0, 0, 1⟩, ⟨0, 0, 0⟩, (0, 0, 0)⟩

/-- Ray starting 0.00005 outside the canonical sphere, entering along +z:
the near hit is at distance 1/20000, below MIN_INTERSECT_DIST. -/
def raySphereGlance : Ray :=
  ⟨⟨0, 0, -(10001 : ℝ) / 20000⟩, ⟨0, 0, 1⟩, ⟨0, 0, 0⟩, (0, 0, 0)⟩

/-- Ray from (0.3,0,-1) toward +z, aimed at the degenerate triangle. -/
def rayUp : Ray := ⟨⟨0.3, 0, -1⟩, ⟨0, 0, 1⟩, ⟨0, 0, 0⟩, (0, 0, 0)⟩

/-- Ray from (0.3,0.2,-1) toward +z: its plane hit (0.3,0.2,0) lies off
the degenerate triangle's carrier line, so the sub-triangle areas are
positive while the total area is zero. -/
def rayUpOff : Ray := ⟨⟨0.3, 0.2, -1⟩, ⟨0, 0, 1⟩, ⟨0, 0, 0⟩, (0, 0, 0)⟩

/-- Ray from (0,0,9999/20000) toward +z, starting inside the canonical box
0.00005 away from the +z face: the exit parameter tmax = 1/20000 is below
the 0.0001 epsilon. -/
def rayBoxGlance : Ray := ⟨⟨0, 0, (9999 : ℝ) / 20000⟩, ⟨0, 0, 1⟩, ⟨0, 0, 0⟩, (0, 0, 0)⟩

/-- Ray from (2,0,-2) toward +z: it misses the canonical sphere, with a
negative discriminant. -/
def rayDiscMiss : Ray := ⟨⟨2, 0, -2⟩, ⟨0, 0, 1⟩, ⟨0, 0, 0⟩, (0, 0, 0)⟩

@[simp] theorem Vec3.add_def (a b : Vec3) :
    a + b = ⟨a.x + b.x, a.y + b.y, a.z + b.z⟩ := rfl

@[simp] theorem Vec3.sub_def (a b : Vec3) :
    a - b = ⟨a.x - b.x, a.y - b.y, a.z - b.z⟩ := rfl

@[simp] theorem Vec3.smul_def (t : ℝ) (v : Vec3) :
    t • v = ⟨t * v.x, t * v.y, t * v.z⟩ := rfl

/-- Rewriting helper: the square root of a known perfect square. -/
theorem sqrt_eval {a b : ℝ} (hb : 0 ≤ b) (h : b ^ 2 = a) : Real.sqrt a = b := by
  subst h; exact Real.sqrt_sq hb

/-- fdiv by zero on a nonnegative numerator: the infinity surrogate for a
positive numerator, zero for a zero numerator. -/
theorem fdiv_zero_nonneg {x : ℝ} (hx : 0 ≤ x) : fdiv x 0 = if 0 < x then INF_F else 0 := by
  unfold fdiv
  rw [if_pos rfl, if_neg (not_lt.mpr hx)]

/-- C10: whenever a primitive intersection test reports no hit (takes a
miss branch), the by-reference normal output parameter is returned exactly
as it was passed in: it is never written on a miss, for the sphere, box,
square-plane and triangle tests alike. -/
theorem c10_no_hit_preserves_normal :
    (∀ g r n, sphereMiss g r → (sphereIntersectionTest g r n).2 = n) ∧
    (∀ g r n, boxMiss g r → (boxIntersectionTest g r n).2 = n) ∧
    (∀ g r n, ¬ squareplaneAccept g r → (squareplaneIntersectionTest g r n).2 = n) ∧
    (∀ tri r n, triMiss tri r → (triIntersectionTest tri r n).2 = n) := by
  refine ⟨?_, ?_, ?_, ?_⟩
  · intro g r n h
    simp only [sphereIntersectionTest]
    by_cases hr : sphereRadicand g r < 0
    · rw [if_pos hr]
    · rw [if_neg hr]
      rcases h with h | h
      · exact absurd h hr
      · rw [if_pos h]
  · intro g r n h
    have hmiss : ¬((boxSlabs (worldToLocalRay g r)).tmax ≥ (boxSlabs (worldToLocalRay g r)).tmin ∧
        (boxSlabs (worldToLocalRay g r)).tmax > 0) := by
      rcases h with h | h
      · exact fun hc => absurd hc.1 (not_le.mpr h)
      · exact fun hc => absurd hc.2 (not_lt.mpr h)
    simp only [boxIntersectionTest]
    rw [if_neg hmiss]
  · intro g r n h
    simp only [squareplaneIntersectionTest]
    split_ifs with h1
    · exact absurd ⟨h1.1, abs_le.mpr ⟨h1.2.1, h1.2.2.1⟩, abs_le.mpr ⟨h1.2.2.2.1, h1.2.2.2.2⟩⟩ h
    · rfl
  · intro tri r n h
    simp only [triIntersectionTest]
    split_ifs with h1 h2
    · rfl
    · rcases h with h | h
      · exact absurd h h1
      · exact absurd h2 h
    · rfl

/-- Witness for C10: concrete misses of all four tests leave the passed-in
normal (5,5,5) untouched. -/
theorem c10_no_hit_preserves_normal_witness :
    (sphereIntersectionTest gIdentity raySphereAway ⟨5, 5, 5⟩).2 = ⟨5, 5, 5⟩ ∧
    (boxIntersectionTest gIdentity rayBoxAway ⟨5, 5, 5⟩).2 = ⟨5, 5, 5⟩ ∧
    (squareplaneIntersectionTest gIdentity rayPlaneAway ⟨5, 5, 5⟩).2 = ⟨5, 5, 5⟩ ∧
    (triIntersectionTest triUnit rayFarMiss ⟨5, 5, 5⟩).2 = ⟨5, 5, 5⟩ := by
  refine ⟨?_, ?_, ?_, ?_⟩
  · refine c10_no_hit_preserves_normal.1 gIdentity raySphereAway ⟨5, 5, 5⟩ (Or.inr ⟨?_, ?_⟩) <;>
      norm_num [sphereT1, sphereT2, sphereB, sphereRadicand, worldToLocalRay, multiplyMV,
        Mat4.mulVec, vec4of, gIdentity, mat4Id, raySphereAway, Vec3.dot, Vec3.normalize,
        Vec3.length, fdiv, Real.sqrt_one,
        sqrt_eval (a := (1 : ℝ) / 4) (b := 1 / 2) (by norm_num) (by norm_num)]
  · refine c10_no_hit_preserves_normal.2.1 gIdentity rayBoxAway ⟨5, 5, 5⟩ (Or.inr ?_)
    norm_num [boxSlabs, slabStep, worldToLocalRay, multiplyMV, Mat4.mulVec, vec4of,
      gIdentity, mat4Id, rayBoxAway, Vec3.dot, Vec3.normalize, Vec3.length, Vec3.nth,
      Vec3.setNth, fdiv, INF_F, Real.sqrt_one, Fin.ext_iff]
  · refine c10_no_hit_preserves_normal.2.2.1 gIdentity rayPlaneAway ⟨5, 5, 5⟩ ?_
    norm_num [squareplaneAccept, squareplaneT, squareplaneP, getPointOnRay, worldToLocalRay,
      multiplyMV, Mat4.mulVec, vec4of, gIdentity, mat4Id, rayPlaneAway, Vec3.dot,
      Vec3.normalize, Vec3.length, fdiv, Real.sqrt_one]
  · refine c10_no_hit_preserves_normal.2.2.2 triUnit rayFarMiss ⟨5, 5, 5⟩ (Or.inr ?_)
    norm_num [triAccept, triS1, triS2, triS3, triT, triP, triArea, triUnit, rayFarMiss,
      Vec3.dot, Vec3.cross, Vec3.length, fdiv, Real.sqrt_one,
      sqrt_eval (a := (81 : ℝ)) (b := 9) (by norm_num) (by norm_num),
      sqrt_eval (a := (25 : ℝ)) (b := 5) (by norm_num) (by norm_num)]

/-- C3 counterexample: on a barycentric reject, triIntersectionTest signals
the absence of an intersection by returning -1, which is not the shared
maximum-distance sentinel MAX_INTERSECT_DIST. -/
theorem c3_counterexample :
    triIntersectionTest triUnit rayFarMiss ⟨5, 5, 5⟩ = (-1, ⟨5, 5, 5⟩) ∧
    (-1 : ℝ) ≠ MAX_INTERSECT_DIST := by
  constructor
  · norm_num [triIntersectionTest, triAccept, triT, triP, triArea, triS1, triS2, triS3,
      triUnit, rayFarMiss, Vec3.dot, Vec3.cross, Vec3.length, fdiv, Real.sqrt_one,
      sqrt_eval (a := (81 : ℝ)) (b := 9) (by norm_num) (by norm_num),
      sqrt_eval (a := (25 : ℝ)) (b := 5) (by norm_num) (by norm_num)]
  · norm_num [MAX_INTERSECT_DIST]

/-- C3 as amended: the sphere, box and square-plane tests signal the
absence of an intersection by returning the MAX_INTERSECT_DIST sentinel
(never an exception, never a negative value), but triIntersectionTest
signals it by a negative return value (the negative plane t or -1), never
by the sentinel. -/
theorem c3_no_hit_sentinels :
    (∀ g r n, sphereMiss g r → sphereIntersectionTest g r n = (MAX_INTERSECT_DIST, n)) ∧
    (∀ g r n, boxMiss g r → boxIntersectionTest g r n = (MAX_INTERSECT_DIST, n)) ∧
    (∀ g r n, ¬ squareplaneAccept g r →
      squareplaneIntersectionTest g r n = (MAX_INTERSECT_DIST, n)) ∧
    (∀ tri r n, triMiss tri r →
      (triIntersectionTest tri r n).1 < 0 ∧
        (triIntersectionTest tri r n).1 ≠ MAX_INTERSECT_DIST) := by
  refine ⟨?_, ?_, ?_, ?_⟩
  · intro g r n h
    simp only [sphereIntersectionTest]
    by_cases hr : sphereRadicand g r < 0
    · rw [if_pos hr]
    · rw [if_neg hr]
      rcases h with h | h
      · exact absurd h hr
      · rw [if_pos h]
  · intro g r n h
    have hmiss : ¬((boxSlabs (worldToLocalRay g r)).tmax ≥ (boxSlabs (worldToLocalRay g r)).tmin ∧
        (boxSlabs (worldToLocalRay g r)).tmax > 0) := by
      rcases h with h | h
      · exact fun hc => absurd hc.1 (not_le.mpr h)
      · exact fun hc => absurd hc.2 (not_lt.mpr h)
    simp only [boxIntersectionTest]
    rw [if_neg hmiss]
  · intro g r n h
    simp only [squareplaneIntersectionTest]
    split_ifs with h1
    · exact absurd ⟨h1.1, abs_le.mpr ⟨h1.2.1, h1.2.2.1⟩, abs_le.mpr ⟨h1.2.2.2.1, h1.2.2.2.2⟩⟩ h
    · rfl
  · intro tri r n h
    simp only [triIntersectionTest]
    split_ifs with h1 h2
    · constructor
      · exact h1
      · intro hc
        have hc2 : triT tri r = MAX_INTERSECT_DIST := hc
        rw [hc2] at h1
        norm_num [MAX_INTERSECT_DIST] at h1
    · rcases h with h | h
      · exact absurd h h1
      · exact absurd h2 h
    · constructor
      · norm_num
      · norm_num [MAX_INTERSECT_DIST]

/-- Witness for C3: concrete misses of the four tests, showing the sphere,
box and plane return the sentinel and the triangle a negative value. -/
theorem c3_no_hit_sentinels_witness :
    sphereIntersectionTest gIdentity raySphereAway ⟨5, 5, 5⟩ = (MAX_INTERSECT_DIST, ⟨5, 5, 5⟩) ∧
    boxIntersectionTest gIdentity rayBoxAway ⟨5, 5, 5⟩ = (MAX_INTERSECT_DIST, ⟨5, 5, 5⟩) ∧
    squareplaneIntersectionTest gIdentity rayPlaneAway ⟨5, 5, 5⟩ =
      (MAX_INTERSECT_DIST, ⟨5, 5, 5⟩) ∧
    (triIntersectionTest triUnit rayFarMiss ⟨5, 5, 5⟩).1 < 0 ∧
    (triIntersectionTest triUnit rayFarMiss ⟨5, 5, 5⟩).1 ≠ MAX_INTERSECT_DIST := by
  refine ⟨?_, ?_, ?_, ?_⟩
  · refine c3_no_hit_sentinels.1 gIdentity raySphereAway ⟨5, 5, 5⟩ (Or.inr ⟨?_, ?_⟩) <;>
      norm_num [sphereT1, sphereT2, sphereB, sphereRadicand, worldToLocalRay, multiplyMV,
        Mat4.mulVec, vec4of, gIdentity, mat4Id, raySphereAway, Vec3.dot, Vec3.normalize,
        Vec3.length, fdiv, Real.sqrt_one,
        sqrt_eval (a := (1 : ℝ) / 4) (b := 1 / 2) (by norm_num) (by norm_num)]
  · refine c3_no_hit_sentinels.2.1 gIdentity rayBoxAway ⟨5, 5, 5⟩ (Or.inr ?_)
    norm_num [boxSlabs, slabStep, worldToLocalRay, multiplyMV, Mat4.mulVec, vec4of,
      gIdentity, mat4Id, rayBoxAway, Vec3.dot, Vec3.normalize, Vec3.length, Vec3.nth,
      Vec3.setNth, fdiv, INF_F, Real.sqrt_one, Fin.ext_iff]
  · refine c3_no_hit_sentinels.2.2.1 gIdentity rayPlaneAway ⟨5, 5, 5⟩ ?_
    norm_num [squareplaneAccept, squareplaneT, squareplaneP, getPointOnRay, worldToLocalRay,
      multiplyMV, Mat4.mulVec, vec4of, gIdentity, mat4Id, rayPlaneAway, Vec3.dot,
      Vec3.normalize, Vec3.length, fdiv, Real.sqrt_one]
  · refine c3_no_hit_sentinels.2.2.2 triUnit rayFarMiss ⟨5, 5, 5⟩ (Or.inr ?_)
    norm_num [triAccept, triS1, triS2, triS3, triT, triP, triArea, triUnit, rayFarMiss,
      Vec3.dot, Vec3.cross, Vec3.length, fdiv, Real.sqrt_one,
      sqrt_eval (a := (81 : ℝ)) (b := 9) (by norm_num) (by norm_num),
      sqrt_eval (a := (25 : ℝ)) (b := 5) (by norm_num) (by norm_num)]

/-- C5: the box slab test reports no hit exactly when tmax < tmin or
tmax ≤ 0 for the running entry/exit parameters; when it hits with
tmin ≤ 0 (origin inside the box) it returns the exit hit at tmax with
tmax's face normal, and with tmin > 0 the entry hit at tmin with tmin's
face normal. -/
theorem c5_box_slab_branches : ∀ g r n,
    ((boxSlabs (worldToLocalRay g r)).tmax < (boxSlabs (worldToLocalRay g r)).tmin ∨
        (boxSlabs (worldToLocalRay g r)).tmax ≤ 0 →
      boxIntersectionTest g r n = (MAX_INTERSECT_DIST, n)) ∧
    ((boxSlabs (worldToLocalRay g r)).tmin ≤ (boxSlabs (worldToLocalRay g r)).tmax →
      0 < (boxSlabs (worldToLocalRay g r)).tmax →
      (boxSlabs (worldToLocalRay g r)).tmin ≤ 0 →
      boxIntersectionTest g r n =
        (Vec3.length (r.origin - localPointToWorld g
            (getPointOnRay (worldToLocalRay g r) (boxSlabs (worldToLocalRay g r)).tmax)),
         localNormalToWorld g (boxSlabs (worldToLocalRay g r)).tmax_n)) ∧
    ((boxSlabs (worldToLocalRay g r)).tmin ≤ (boxSlabs (worldToLocalRay g r)).tmax →
      0 < (boxSlabs (worldToLocalRay g r)).tmax →
      0 < (boxSlabs (worldToLocalRay g r)).tmin →
      boxIntersectionTest g r n =
        (Vec3.length (r.origin - localPointToWorld g
            (getPointOnRay (worldToLocalRay g r) (boxSlabs (worldToLocalRay g r)).tmin)),
         localNormalToWorld g (boxSlabs (worldToLocalRay g r)).tmin_n)) := by
  intro g r n
  refine ⟨?_, ?_, ?_⟩
  · intro h
    have hmiss : ¬((boxSlabs (worldToLocalRay g r)).tmax ≥ (boxSlabs (worldToLocalRay g r)).tmin ∧
        (boxSlabs (worldToLocalRay g r)).tmax > 0) := by
      rcases h with h | h
      · exact fun hc => absurd hc.1 (not_le.mpr h)
      · exact fun hc => absurd hc.2 (not_lt.mpr h)
    simp only [boxIntersectionTest]
    rw [if_neg hmiss]
  · intro h1 h2 h3
    simp only [boxIntersectionTest]
    rw [if_pos ⟨h1, h2⟩, if_pos h3, if_pos h3]
    rfl
  · intro h1 h2 h3
    simp only [boxIntersectionTest]
    rw [if_pos ⟨h1, h2⟩, if_neg (not_le.mpr h3), if_neg (not_le.mpr h3)]
    rfl

/-- Witness for C5: a miss behind the box, an inside-origin exit hit, and
an outside-origin entry hit, each at a concrete ray. -/
theorem c5_box_slab_branches_witness :
    boxIntersectionTest gIdentity rayBoxAway ⟨5, 5, 5⟩ = (MAX_INTERSECT_DIST, ⟨5, 5, 5⟩) ∧
    boxIntersectionTest gIdentity rayBoxInside ⟨5, 5, 5⟩ =
      (Vec3.length (rayBoxInside.origin - localPointToWorld gIdentity
          (getPointOnRay (worldToLocalRay gIdentity rayBoxInside)
            (boxSlabs (worldToLocalRay gIdentity rayBoxInside)).tmax)),
       localNormalToWorld gIdentity (boxSlabs (worldToLocalRay gIdentity rayBoxInside)).tmax_n) ∧
    boxIntersectionTest gIdentity rayBoxAnalytic ⟨5, 5, 5⟩ =
      (Vec3.length (rayBoxAnalytic.origin - localPointToWorld gIdentity
          (getPointOnRay (worldToLocalRay gIdentity rayBoxAnalytic)
            (boxSlabs (worldToLocalRay gIdentity rayBoxAnalytic)).tmin)),
       localNormalToWorld gIdentity (boxSlabs (worldToLocalRay gIdentity rayBoxAnalytic)).tmin_n) := by
  refine ⟨?_, ?_, ?_⟩
  · refine (c5_box_slab_branches gIdentity rayBoxAway ⟨5, 5, 5⟩).1 (Or.inr ?_)
    norm_num [boxSlabs, slabStep, worldToLocalRay, multiplyMV, Mat4.mulVec, vec4of,
      gIdentity, mat4Id, rayBoxAway, Vec3.dot, Vec3.normalize, Vec3.length, Vec3.nth,
      Vec3.setNth, fdiv, INF_F, Real.sqrt_one, Fin.ext_iff]
  · refine (c5_box_slab_branches gIdentity rayBoxInside ⟨5, 5, 5⟩).2.1 ?_ ?_ ?_ <;>
      norm_num [boxSlabs, slabStep, worldToLocalRay, multiplyMV, Mat4.mulVec, vec4of,
        gIdentity, mat4Id, rayBoxInside, Vec3.dot, Vec3.normalize, Vec3.length, Vec3.nth,
        Vec3.setNth, fdiv, INF_F, Real.sqrt_one, Fin.ext_iff]
  · refine (c5_box_slab_branches gIdentity rayBoxAnalytic ⟨5, 5, 5⟩).2.2 ?_ ?_ ?_ <;>
      norm_num [boxSlabs, slabStep, worldToLocalRay, multiplyMV, Mat4.mulVec, vec4of,
        gIdentity, mat4Id, rayBoxAnalytic, Vec3.dot, Vec3.normalize, Vec3.length, Vec3.nth,
        Vec3.setNth, fdiv, INF_F, Real.sqrt_one, Fin.ext_iff]

/-- C8: the square-plane test accepts exactly when the local plane
parameter t exceeds the 0.0001 epsilon and the local hit point lies within
the canonical unit square inflated to 0.5001 in x and y; on acceptance it
returns the world distance and mapped normal, otherwise the no-hit
sentinel with the normal untouched. -/
theorem c8_squareplane_accept : ∀ g r n,
    (squareplaneAccept g r →
      squareplaneIntersectionTest g r n =
        (Vec3.length (r.origin - localPointToWorld g (squareplaneP g r)),
         localNormalToWorld g ⟨0, 0, 1⟩)) ∧
    (¬ squareplaneAccept g r →
      squareplaneIntersectionTest g r n = (MAX_INTERSECT_DIST, n)) := by
  intro g r n
  constructor
  · intro h
    simp only [squareplaneIntersectionTest]
    rw [if_pos ⟨h.1, (abs_le.mp h.2.1).1, (abs_le.mp h.2.1).2,
      (abs_le.mp h.2.2).1, (abs_le.mp h.2.2).2⟩]
    rfl
  · intro h
    simp only [squareplaneIntersectionTest]
    split_ifs with h1
    · exact absurd ⟨h1.1, abs_le.mpr ⟨h1.2.1, h1.2.2.1⟩, abs_le.mpr ⟨h1.2.2.2.1, h1.2.2.2.2⟩⟩ h
    · rfl

/-- Witness for C8: a concrete accepted hit and a concrete rejection. -/
theorem c8_squareplane_accept_witness :
    squareplaneIntersectionTest gIdentity rayPlaneHit ⟨5, 5, 5⟩ =
      (Vec3.length (rayPlaneHit.origin -
          localPointToWorld gIdentity (squareplaneP gIdentity rayPlaneHit)),
       localNormalToWorld gIdentity ⟨0, 0, 1⟩) ∧
    squareplaneIntersectionTest gIdentity rayPlaneAway ⟨5, 5, 5⟩ =
      (MAX_INTERSECT_DIST, ⟨5, 5, 5⟩) := by
  constructor
  · refine (c8_squareplane_accept gIdentity rayPlaneHit ⟨5, 5, 5⟩).1 ?_
    refine ⟨?_, ?_, ?_⟩ <;>
      norm_num [squareplaneT, squareplaneP, getPointOnRay, worldToLocalRay, multiplyMV,
        Mat4.mulVec, vec4of, gIdentity, mat4Id, rayPlaneHit, Vec3.dot, Vec3.normalize,
        Vec3.length, fdiv, Real.sqrt_one]
  · refine (c8_squareplane_accept gIdentity rayPlaneAway ⟨5, 5, 5⟩).2 ?_
    norm_num [squareplaneAccept, squareplaneT, squareplaneP, getPointOnRay, worldToLocalRay,
      multiplyMV, Mat4.mulVec, vec4of, gIdentity, mat4Id, rayPlaneAway, Vec3.dot,
      Vec3.normalize, Vec3.length, fdiv, Real.sqrt_one]

/-- C1 counterexample: for rayNearEdge against triUnit the plane parameter
is nonnegative, every barycentric weight lies in [0,1], and the weight sum
1.002 is within the tolerance 1/100 of 1 without being exactly 1 — yet the
test rejects the intersection.  The acceptance check is exact equality of
the sum with 1, not a tolerance-based comparison. -/
theorem c1_counterexample :
    0 ≤ triT triUnit rayNearEdge ∧
    0 ≤ triS1 triUnit rayNearEdge ∧ triS1 triUnit rayNearEdge ≤ 1 ∧
    0 ≤ triS2 triUnit rayNearEdge ∧ triS2 triUnit rayNearEdge ≤ 1 ∧
    0 ≤ triS3 triUnit rayNearEdge ∧ triS3 triUnit rayNearEdge ≤ 1 ∧
    |triS1 triUnit rayNearEdge + triS2 triUnit rayNearEdge + triS3 triUnit rayNearEdge - 1| ≤
      1 / 100 ∧
    triS1 triUnit rayNearEdge + triS2 triUnit rayNearEdge + triS3 triUnit rayNearEdge ≠ 1 ∧
    triIntersectionTest triUnit rayNearEdge ⟨5, 5, 5⟩ = (-1, ⟨5, 5, 5⟩) := by
  norm_num [triIntersectionTest, triAccept, triT, triP, triArea, triS1, triS2, triS3,
    triUnit, rayNearEdge, Vec3.dot, Vec3.cross, Vec3.length, fdiv, Real.sqrt_one, abs_le,
    sqrt_eval (a := (251001 : ℝ) / 1000000) (b := 501 / 1000) (by norm_num) (by norm_num),
    sqrt_eval (a := (1 : ℝ) / 1000000) (b := 1 / 1000) (by norm_num) (by norm_num),
    sqrt_eval (a := (4 : ℝ)) (b := 2) (by norm_num) (by norm_num)]

/-- C1 as amended: for a nonnegative plane parameter, triIntersectionTest
accepts (returning the plane t and the stored plane normal) exactly when
every barycentric weight, computed as a ratio of sub-triangle area to
total area, lies in [0,1] and the three weights sum to exactly 1 — exact
equality, not a tolerance-based comparison. -/
theorem c1_exact_sum : ∀ tri r n, 0 ≤ triT tri r →
    (triIntersectionTest tri r n = (triT tri r, tri.plane_normal) ↔
      (0 ≤ triS1 tri r ∧ triS1 tri r ≤ 1 ∧ 0 ≤ triS2 tri r ∧ triS2 tri r ≤ 1 ∧
        0 ≤ triS3 tri r ∧ triS3 tri r ≤ 1 ∧
        triS1 tri r + triS2 tri r + triS3 tri r = 1)) := by
  intro tri r n ht
  constructor
  · intro heq
    simp only [triIntersectionTest] at heq
    rw [if_neg (not_lt.mpr ht)] at heq
    split_ifs at heq with h2
    · exact ⟨h2.1, h2.2.1, h2.2.2.1, h2.2.2.2.1, h2.2.2.2.2.1, h2.2.2.2.2.2.1, h2.2.2.2.2.2.2⟩
    · have hneg : (-1 : ℝ) = triT tri r := congrArg Prod.fst heq
      linarith
  · intro hrs
    simp only [triIntersectionTest]
    rw [if_neg (not_lt.mpr ht),
      if_pos (show triAccept tri r from
        ⟨hrs.1, hrs.2.1, hrs.2.2.1, hrs.2.2.2.1, hrs.2.2.2.2.1, hrs.2.2.2.2.2.1,
          hrs.2.2.2.2.2.2⟩)]

/-- Witness for C1 (amended): a concrete interior hit whose weights are
0.6, 0.2 and 0.2, summing to exactly 1, is accepted. -/
theorem c1_exact_sum_witness :
    triIntersectionTest triUnit rayTriHit ⟨5, 5, 5⟩ =
      (triT triUnit rayTriHit, triUnit.plane_normal) :=
  (c1_exact_sum triUnit rayTriHit ⟨5, 5, 5⟩
    (by norm_num [triT, triUnit, rayTriHit, Vec3.dot, fdiv])).mpr
    (by norm_num [triS1, triS2, triS3, triT, triP, triArea, triUnit, rayTriHit,
      Vec3.dot, Vec3.cross, Vec3.length, fdiv, Real.sqrt_one,
      sqrt_eval (a := (9 : ℝ) / 25) (b := 3 / 5) (by norm_num) (by norm_num),
      sqrt_eval (a := (1 : ℝ) / 25) (b := 1 / 5) (by norm_num) (by norm_num),
      sqrt_eval (a := (4 : ℝ)) (b := 2) (by norm_num) (by norm_num)])

/-- C2 counterexample: the claim says the zero-area case is handled "via a
special case, rather than dividing by the zero total area" — but for the
degenerate triangle triDegen (total area 0) and the ray rayUpOff, the
barycentric weight s1 is literally the quotient of the positive
sub-triangle area 0.1 by the zero total area: no special case intervenes,
the division by zero is performed and yields the infinity surrogate (IEEE
+infinity in the source), and only then do the barycentric range checks
reject, returning -1 with the normal untouched. -/
theorem c2_counterexample :
    triArea triDegen = 0 ∧
    triS1 triDegen rayUpOff =
      fdiv (0.5 * Vec3.length (Vec3.cross (triP triDegen rayUpOff - triDegen.p1)
        (triP triDegen rayUpOff - triDegen.p2))) 0 ∧
    (0 : ℝ) < 0.5 * Vec3.length (Vec3.cross (triP triDegen rayUpOff - triDegen.p1)
        (triP triDegen rayUpOff - triDegen.p2)) ∧
    triS1 triDegen rayUpOff = INF_F ∧
    triIntersectionTest triDegen rayUpOff ⟨5, 5, 5⟩ = (-1, ⟨5, 5, 5⟩) := by
  have harea : triArea triDegen = 0 := by
    norm_num [triArea, triDegen, Vec3.cross, Vec3.length, Vec3.dot, Real.sqrt_zero]
  refine ⟨harea, ?_, ?_, ?_, ?_⟩
  · simp only [triS1, harea]
  · norm_num [triP, triT, triDegen, rayUpOff, Vec3.dot, Vec3.cross, Vec3.length, fdiv,
      sqrt_eval (a := (1 : ℝ) / 25) (b := 1 / 5) (by norm_num) (by norm_num)]
  · norm_num [triS1, triP, triT, triArea, triDegen, rayUpOff, Vec3.dot, Vec3.cross,
      Vec3.length, fdiv, Real.sqrt_zero,
      sqrt_eval (a := (1 : ℝ) / 25) (b := 1 / 5) (by norm_num) (by norm_num)]
  · norm_num [triIntersectionTest, triAccept, triT, triP, triArea, triS1, triS2, triS3,
      triDegen, rayUpOff, Vec3.dot, Vec3.cross, Vec3.length, fdiv, INF_F, Real.sqrt_zero,
      sqrt_eval (a := (1 : ℝ) / 25) (b := 1 / 5) (by norm_num) (by norm_num)]

/-- C2 as amended: for a zero-area triangle, triIntersectionTest reports no
hit (a negative return value) and leaves the normal untouched, for every
ray — but not via a special case: the source divides the sub-triangle
areas by the zero total area, every divided weight is the infinity
surrogate or zero, and the barycentric range and sum checks then fail
(under IEEE arithmetic the same checks fail on the infinity or NaN
weights), so no NaN-containing distance or normal is ever returned. -/
theorem c2_degenerate_no_hit : ∀ tri r n, triArea tri = 0 →
    (triIntersectionTest tri r n).1 < 0 ∧ (triIntersectionTest tri r n).2 = n := by
  intro tri r n h
  have hlen : ∀ u v : Vec3, (0 : ℝ) ≤ 0.5 * Vec3.length (Vec3.cross u v) := by
    intro u v
    unfold Vec3.length
    positivity
  have hs : ∀ v w : Vec3, fdiv (0.5 * Vec3.length (Vec3.cross v w)) (triArea tri) =
      if 0 < 0.5 * Vec3.length (Vec3.cross v w) then INF_F else 0 := by
    intro v w
    rw [h]
    exact fdiv_zero_nonneg (hlen v w)
  have hnacc : ¬ triAccept tri r := by
    intro hacc
    obtain ⟨h1, h2, h3, h4, h5, h6, h7⟩ := hacc
    simp only [triS1, triS2, triS3] at h2 h4 h6 h7
    rw [hs] at h2 h4 h6
    rw [hs, hs, hs] at h7
    by_cases c1 : 0 < 0.5 * Vec3.length (Vec3.cross (triP tri r - tri.p1) (triP tri r - tri.p2))
    · rw [if_pos c1] at h2
      norm_num [INF_F] at h2
    by_cases c2 : 0 < 0.5 * Vec3.length (Vec3.cross (triP tri r - tri.p2) (triP tri r - tri.p0))
    · rw [if_pos c2] at h4
      norm_num [INF_F] at h4
    by_cases c3 : 0 < 0.5 * Vec3.length (Vec3.cross (triP tri r - tri.p0) (triP tri r - tri.p1))
    · rw [if_pos c3] at h6
      norm_num [INF_F] at h6
    rw [if_neg c1, if_neg c2, if_neg c3] at h7
    norm_num at h7
  simp only [triIntersectionTest]
  rw [if_neg hnacc]
  split_ifs with h1
  · exact ⟨h1, rfl⟩
  · exact ⟨by norm_num, rfl⟩

/-- Witness for C2: a concrete degenerate triangle rejects a ray aimed at
it, leaving the normal untouched. -/
theorem c2_degenerate_no_hit_witness :
    (triIntersectionTest triDegen rayUp ⟨5, 5, 5⟩).1 < 0 ∧
    (triIntersectionTest triDegen rayUp ⟨5, 5, 5⟩).2 = ⟨5, 5, 5⟩ :=
  c2_degenerate_no_hit triDegen rayUp ⟨5, 5, 5⟩
    (by norm_num [triArea, triDegen, Vec3.cross, Vec3.length, Vec3.dot, Real.sqrt_zero])

/-- C4 counterexample: for the ray starting on the sphere at (0,0,0.5) and
leaving along +z, the roots are t1 = 0 and t2 = -1, so no root is positive
— yet sphereIntersectionTest does not report no hit: the else branch takes
max(t1,t2) = 0 and returns a degenerate hit of distance 0 with the normal
written to (0,0,1). -/
theorem c4_counterexample :
    sphereT1 gIdentity rayGraze = 0 ∧ sphereT2 gIdentity rayGraze = -1 ∧
    sphereIntersectionTest gIdentity rayGraze ⟨5, 5, 5⟩ = (0, ⟨0, 0, 1⟩) ∧
    (sphereIntersectionTest gIdentity rayGraze ⟨5, 5, 5⟩).1 ≠ MAX_INTERSECT_DIST ∧
    (sphereIntersectionTest gIdentity rayGraze ⟨5, 5, 5⟩).2 ≠ ⟨5, 5, 5⟩ := by
  refine ⟨?_, ?_, ?_, ?_, ?_⟩ <;>
    norm_num [sphereIntersectionTest, sphereRadicand, sphereT1, sphereT2, sphereB,
      worldToLocalRay, multiplyMV, Mat4.mulVec, vec4of, gIdentity, mat4Id, rayGraze,
      Vec3.dot, Vec3.normalize, Vec3.length, fdiv, getPointOnRay, MAX_INTERSECT_DIST,
      Vec3.mk.injEq, Prod.ext_iff,
      sqrt_eval (a := (4 : ℝ)) (b := 2) (by norm_num) (by norm_num),
      Real.sqrt_one, Real.sqrt_zero]

/-- C4 as amended: sphereIntersectionTest reports no hit when the
discriminant (radicand) is negative or when both roots are negative; when
both roots are positive it hits at the smaller root; in every remaining
case — including a zero root with the other root nonpositive, where the
claim's "no positive root means no hit" fails — it hits at max(t1,t2).
Moreover t1 and t2 are genuine roots of the canonical quadratic: for a
unit local direction, the local point at parameter t1 or t2 lies on the
canonical sphere of radius 0.5. -/
theorem c4_sphere_root_selection : ∀ g r n,
    (sphereRadicand g r < 0 → sphereIntersectionTest g r n = (MAX_INTERSECT_DIST, n)) ∧
    (sphereT1 g r < 0 ∧ sphereT2 g r < 0 →
      sphereIntersectionTest g r n = (MAX_INTERSECT_DIST, n)) ∧
    (0 ≤ sphereRadicand g r → 0 < sphereT1 g r → 0 < sphereT2 g r →
      sphereIntersectionTest g r n =
        (Vec3.length (r.origin - localPointToWorld g
            (getPointOnRay (worldToLocalRay g r) (min (sphereT1 g r) (sphereT2 g r)))),
         localNormalToWorld g
            (getPointOnRay (worldToLocalRay g r) (min (sphereT1 g r) (sphereT2 g r))))) ∧
    (0 ≤ sphereRadicand g r → ¬(sphereT1 g r < 0 ∧ sphereT2 g r < 0) →
      ¬(0 < sphereT1 g r ∧ 0 < sphereT2 g r) →
      sphereIntersectionTest g r n =
        (Vec3.length (r.origin - localPointToWorld g
            (getPointOnRay (worldToLocalRay g r) (max (sphereT1 g r) (sphereT2 g r)))),
         localNormalToWorld g
            (getPointOnRay (worldToLocalRay g r) (max (sphereT1 g r) (sphereT2 g r))))) ∧
    (0 ≤ sphereRadicand g r →
      Vec3.dot (worldToLocalRay g r).direction (worldToLocalRay g r).direction = 1 →
      Vec3.dot ((worldToLocalRay g r).origin + sphereT1 g r • (worldToLocalRay g r).direction)
          ((worldToLocalRay g r).origin + sphereT1 g r • (worldToLocalRay g r).direction) =
        (0.5 : ℝ) ^ 2 ∧
      Vec3.dot ((worldToLocalRay g r).origin + sphereT2 g r • (worldToLocalRay g r).direction)
          ((worldToLocalRay g r).origin + sphereT2 g r • (worldToLocalRay g r).direction) =
        (0.5 : ℝ) ^ 2) := by
  intro g r n
  refine ⟨?_, ?_, ?_, ?_, ?_⟩
  · intro h
    simp only [sphereIntersectionTest]
    rw [if_pos h]
  · intro h
    simp only [sphereIntersectionTest]
    by_cases hr : sphereRadicand g r < 0
    · rw [if_pos hr]
    · rw [if_neg hr, if_pos h]
  · intro h0 h1 h2
    simp only [sphereIntersectionTest]
    rw [if_neg (not_lt.mpr h0), if_neg (by intro hc; linarith [hc.1]), if_pos ⟨h1, h2⟩]
    rfl
  · intro h0 h1 h2
    simp only [sphereIntersectionTest]
    rw [if_neg (not_lt.mpr h0), if_neg h1, if_neg h2]
    rfl
  · intro h0 hd
    have hexp : ∀ (o d : Vec3) (t : ℝ),
        Vec3.dot (o + t • d) (o + t • d) =
          Vec3.dot o o + 2 * t * Vec3.dot o d + t ^ 2 * Vec3.dot d d := by
      intro o d t
      simp only [Vec3.dot, Vec3.add_def, Vec3.smul_def]
      ring
    set s := Real.sqrt (sphereRadicand g r) with hsdef
    have hsq : s ^ 2 = sphereRadicand g r := Real.sq_sqrt h0
    have hrad : sphereRadicand g r =
        sphereB g r * sphereB g r -
          (Vec3.dot (worldToLocalRay g r).origin (worldToLocalRay g r).origin -
            (0.5 : ℝ) ^ 2) := rfl
    have hb : sphereB g r =
        Vec3.dot (worldToLocalRay g r).origin (worldToLocalRay g r).direction := rfl
    rw [hrad, hb] at hsq
    constructor
    · have ht : sphereT1 g r = -sphereB g r + s := rfl
      rw [hexp, hd, ht, hb]
      linear_combination hsq
    · have ht : sphereT2 g r = -sphereB g r - s := rfl
      rw [hexp, hd, ht, hb]
      linear_combination hsq

/-- Witness for C4 (amended): all five conjuncts discharged at concrete
rays — a negative-discriminant miss, a both-roots-negative miss, a
both-roots-positive near hit, the zero-root max branch, and the root
property of the analytic ray. -/
theorem c4_sphere_root_selection_witness :
    sphereIntersectionTest gIdentity rayDiscMiss ⟨5, 5, 5⟩ = (MAX_INTERSECT_DIST, ⟨5, 5, 5⟩) ∧
    sphereIntersectionTest gIdentity raySphereAway ⟨5, 5, 5⟩ = (MAX_INTERSECT_DIST, ⟨5, 5, 5⟩) ∧
    sphereIntersectionTest gIdentity raySphereAnalytic ⟨5, 5, 5⟩ =
      (Vec3.length (raySphereAnalytic.origin - localPointToWorld gIdentity
          (getPointOnRay (worldToLocalRay gIdentity raySphereAnalytic)
            (min (sphereT1 gIdentity raySphereAnalytic) (sphereT2 gIdentity raySphereAnalytic)))),
       localNormalToWorld gIdentity
          (getPointOnRay (worldToLocalRay gIdentity raySphereAnalytic)
            (min (sphereT1 gIdentity raySphereAnalytic)
              (sphereT2 gIdentity raySphereAnalytic)))) ∧
    sphereIntersectionTest gIdentity rayGraze ⟨5, 5, 5⟩ =
      (Vec3.length (rayGraze.origin - localPointToWorld gIdentity
          (getPointOnRay (worldToLocalRay gIdentity rayGraze)
            (max (sphereT1 gIdentity rayGraze) (sphereT2 gIdentity rayGraze)))),
       localNormalToWorld gIdentity
          (getPointOnRay (worldToLocalRay gIdentity rayGraze)
            (max (sphereT1 gIdentity rayGraze) (sphereT2 gIdentity rayGraze)))) ∧
    (Vec3.dot ((worldToLocalRay gIdentity raySphereAnalytic).origin +
          sphereT1 gIdentity raySphereAnalytic •
            (worldToLocalRay gIdentity raySphereAnalytic).direction)
        ((worldToLocalRay gIdentity raySphereAnalytic).origin +
          sphereT1 gIdentity raySphereAnalytic •
            (worldToLocalRay gIdentity raySphereAnalytic).direction) = (0.5 : ℝ) ^ 2 ∧
     Vec3.dot ((worldToLocalRay gIdentity raySphereAnalytic).origin +
          sphereT2 gIdentity raySphereAnalytic •
            (worldToLocalRay gIdentity raySphereAnalytic).direction)
        ((worldToLocalRay gIdentity raySphereAnalytic).origin +
          sphereT2 gIdentity raySphereAnalytic •
            (worldToLocalRay gIdentity raySphereAnalytic).direction) = (0.5 : ℝ) ^ 2) := by
  refine ⟨?_, ?_, ?_, ?_, ?_⟩
  · refine (c4_sphere_root_selection gIdentity rayDiscMiss ⟨5, 5, 5⟩).1 ?_
    norm_num [sphereRadicand, sphereB, worldToLocalRay, multiplyMV, Mat4.mulVec, vec4of,
      gIdentity, mat4Id, rayDiscMiss, Vec3.dot, Vec3.normalize, Vec3.length, fdiv,
      Real.sqrt_one]
  · refine (c4_sphere_root_selection gIdentity raySphereAway ⟨5, 5, 5⟩).2.1 ⟨?_, ?_⟩ <;>
      norm_num [sphereT1, sphereT2, sphereB, sphereRadicand, worldToLocalRay, multiplyMV,
        Mat4.mulVec, vec4of, gIdentity, mat4Id, raySphereAway, Vec3.dot, Vec3.normalize,
        Vec3.length, fdiv, Real.sqrt_one,
        sqrt_eval (a := (1 : ℝ) / 4) (b := 1 / 2) (by norm_num) (by norm_num)]
  · refine (c4_sphere_root_selection gIdentity raySphereAnalytic ⟨5, 5, 5⟩).2.2.1 ?_ ?_ ?_ <;>
      norm_num [sphereT1, sphereT2, sphereB, sphereRadicand, worldToLocalRay, multiplyMV,
        Mat4.mulVec, vec4of, gIdentity, mat4Id, raySphereAnalytic, Vec3.dot, Vec3.normalize,
        Vec3.length, fdiv, Real.sqrt_one,
        sqrt_eval (a := (1 : ℝ) / 4) (b := 1 / 2) (by norm_num) (by norm_num)]
  · refine (c4_sphere_root_selection gIdentity rayGraze ⟨5, 5, 5⟩).2.2.2.1 ?_ ?_ ?_ <;>
      norm_num [sphereT1, sphereT2, sphereB, sphereRadicand, worldToLocalRay, multiplyMV,
        Mat4.mulVec, vec4of, gIdentity, mat4Id, rayGraze, Vec3.dot, Vec3.normalize,
        Vec3.length, fdiv, Real.sqrt_one, Real.sqrt_zero,
        sqrt_eval (a := (4 : ℝ)) (b := 2) (by norm_num) (by norm_num)]
  · refine (c4_sphere_root_selection gIdentity raySphereAnalytic ⟨5, 5, 5⟩).2.2.2.2 ?_ ?_ <;>
      norm_num [sphereRadicand, sphereB, worldToLocalRay, multiplyMV, Mat4.mulVec, vec4of,
        gIdentity, mat4Id, raySphereAnalytic, Vec3.dot, Vec3.normalize, Vec3.length, fdiv,
        Real.sqrt_one]

/-- C7 counterexample: the sphere test accepts a hit at distance 1/20000,
which does not exceed MIN_INTERSECT_DIST = 0.0001 — the sphere test has no
minimum-distance guard (its root comparisons are against 0, not the
shared epsilon). -/
theorem c7_counterexample :
    sphereIntersectionTest gIdentity raySphereGlance ⟨5, 5, 5⟩ = ((1 : ℝ) / 20000, ⟨0, 0, -1⟩) ∧
    (1 : ℝ) / 20000 ≤ MIN_INTERSECT_DIST ∧
    (1 : ℝ) / 20000 ≠ MAX_INTERSECT_DIST := by
  refine ⟨?_, ?_, ?_⟩
  · norm_num [sphereIntersectionTest, sphereRadicand, sphereT1, sphereT2, sphereB,
      worldToLocalRay, multiplyMV, Mat4.mulVec, vec4of, gIdentity, mat4Id, raySphereGlance,
      Vec3.dot, Vec3.normalize, Vec3.length, fdiv, getPointOnRay, MAX_INTERSECT_DIST,
      sqrt_eval (a := (4 : ℝ)) (b := 2) (by norm_num) (by norm_num),
      sqrt_eval (a := (1 : ℝ) / 400000000) (b := 1 / 20000) (by norm_num) (by norm_num),
      Real.sqrt_one, Real.sqrt_zero]
  · norm_num [MIN_INTERSECT_DIST]
  · norm_num [MAX_INTERSECT_DIST]

/-- C7 as amended: only squareplaneIntersectionTest enforces the
minimum-distance epsilon 0.0001 (= MIN_INTERSECT_DIST), rejecting any
candidate with plane parameter at or below it; sphereIntersectionTest,
boxIntersectionTest and triIntersectionTest have no such guard, comparing
candidates only against 0 and accepting arbitrarily small positive (or
zero) candidates below the epsilon. -/
theorem c7_min_distance_guard :
    (∀ g r n, squareplaneT g r ≤ MIN_INTERSECT_DIST →
      squareplaneIntersectionTest g r n = (MAX_INTERSECT_DIST, n)) ∧
    (∀ g r n, 0 ≤ sphereRadicand g r → 0 < sphereT1 g r → 0 < sphereT2 g r →
      sphereIntersectionTest g r n =
        (Vec3.length (r.origin - localPointToWorld g
            (getPointOnRay (worldToLocalRay g r) (min (sphereT1 g r) (sphereT2 g r)))),
         localNormalToWorld g
            (getPointOnRay (worldToLocalRay g r) (min (sphereT1 g r) (sphereT2 g r))))) ∧
    (∀ g r n, (boxSlabs (worldToLocalRay g r)).tmin ≤ (boxSlabs (worldToLocalRay g r)).tmax →
      0 < (boxSlabs (worldToLocalRay g r)).tmax →
      (boxSlabs (worldToLocalRay g r)).tmin ≤ 0 →
      boxIntersectionTest g r n =
        (Vec3.length (r.origin - localPointToWorld g
            (getPointOnRay (worldToLocalRay g r) (boxSlabs (worldToLocalRay g r)).tmax)),
         localNormalToWorld g (boxSlabs (worldToLocalRay g r)).tmax_n)) ∧
    (∀ tri r n, 0 ≤ triT tri r → triAccept tri r →
      triIntersectionTest tri r n = (triT tri r, tri.plane_normal)) := by
  refine ⟨?_, ?_, ?_, ?_⟩
  · intro g r n h
    have h2 : squareplaneT g r ≤ 0.0001 := h
    simp only [squareplaneIntersectionTest]
    rw [if_neg (fun hc => absurd hc.1 (not_lt.mpr h2))]
  · intro g r n h0 h1 h2
    simp only [sphereIntersectionTest]
    rw [if_neg (not_lt.mpr h0), if_neg (by intro hc; linarith [hc.1]), if_pos ⟨h1, h2⟩]
    rfl
  · intro g r n h1 h2 h3
    simp only [boxIntersectionTest]
    rw [if_pos ⟨h1, h2⟩, if_pos h3, if_pos h3]
    rfl
  · intro tri r n ht hacc
    simp only [triIntersectionTest]
    rw [if_neg (not_lt.mpr ht), if_pos hacc]

/-- Witness for C7 (amended): a plane candidate at t = -1 is rejected, the
sphere accepts the glancing hit below the epsilon, the box accepts the
exit hit at tmax = 1/20000 below the epsilon, and the triangle accepts
its interior hit. -/
theorem c7_min_distance_guard_witness :
    squareplaneIntersectionTest gIdentity rayPlaneAway ⟨5, 5, 5⟩ =
      (MAX_INTERSECT_DIST, ⟨5, 5, 5⟩) ∧
    sphereIntersectionTest gIdentity raySphereGlance ⟨5, 5, 5⟩ =
      (Vec3.length (raySphereGlance.origin - localPointToWorld gIdentity
          (getPointOnRay (worldToLocalRay gIdentity raySphereGlance)
            (min (sphereT1 gIdentity raySphereGlance) (sphereT2 gIdentity raySphereGlance)))),
       localNormalToWorld gIdentity
          (getPointOnRay (worldToLocalRay gIdentity raySphereGlance)
            (min (sphereT1 gIdentity raySphereGlance)
              (sphereT2 gIdentity raySphereGlance)))) ∧
    ((boxSlabs (worldToLocalRay gIdentity rayBoxGlance)).tmax ≤ MIN_INTERSECT_DIST ∧
     0 < (boxSlabs (worldToLocalRay gIdentity rayBoxGlance)).tmax ∧
     boxIntersectionTest gIdentity rayBoxGlance ⟨5, 5, 5⟩ =
       (Vec3.length (rayBoxGlance.origin - localPointToWorld gIdentity
           (getPointOnRay (worldToLocalRay gIdentity rayBoxGlance)
             (boxSlabs (worldToLocalRay gIdentity rayBoxGlance)).tmax)),
        localNormalToWorld gIdentity
          (boxSlabs (worldToLocalRay gIdentity rayBoxGlance)).tmax_n)) ∧
    triIntersectionTest triUnit rayTriHit ⟨5, 5, 5⟩ =
      (triT triUnit rayTriHit, triUnit.plane_normal) := by
  refine ⟨?_, ?_, ⟨?_, ?_, ?_⟩, ?_⟩
  · refine c7_min_distance_guard.1 gIdentity rayPlaneAway ⟨5, 5, 5⟩ ?_
    norm_num [squareplaneT, worldToLocalRay, multiplyMV, Mat4.mulVec, vec4of, gIdentity,
      mat4Id, rayPlaneAway, Vec3.dot, Vec3.normalize, Vec3.length, fdiv, Real.sqrt_one,
      MIN_INTERSECT_DIST]
  · refine c7_min_distance_guard.2.1 gIdentity raySphereGlance ⟨5, 5, 5⟩ ?_ ?_ ?_ <;>
      norm_num [sphereT1, sphereT2, sphereB, sphereRadicand, worldToLocalRay, multiplyMV,
        Mat4.mulVec, vec4of, gIdentity, mat4Id, raySphereGlance, Vec3.dot, Vec3.normalize,
        Vec3.length, fdiv, Real.sqrt_one,
        sqrt_eval (a := (1 : ℝ) / 4) (b := 1 / 2) (by norm_num) (by norm_num)]
  · norm_num [boxSlabs, slabStep, worldToLocalRay, multiplyMV, Mat4.mulVec, vec4of,
      gIdentity, mat4Id, rayBoxGlance, Vec3.dot, Vec3.normalize, Vec3.length, Vec3.nth,
      Vec3.setNth, fdiv, INF_F, Real.sqrt_one, Fin.ext_iff, MIN_INTERSECT_DIST]
  · norm_num [boxSlabs, slabStep, worldToLocalRay, multiplyMV, Mat4.mulVec, vec4of,
      gIdentity, mat4Id, rayBoxGlance, Vec3.dot, Vec3.normalize, Vec3.length, Vec3.nth,
      Vec3.setNth, fdiv, INF_F, Real.sqrt_one, Fin.ext_iff]
  · refine c7_min_distance_guard.2.2.1 gIdentity rayBoxGlance ⟨5, 5, 5⟩ ?_ ?_ ?_ <;>
      norm_num [boxSlabs, slabStep, worldToLocalRay, multiplyMV, Mat4.mulVec, vec4of,
        gIdentity, mat4Id, rayBoxGlance, Vec3.dot, Vec3.normalize, Vec3.length, Vec3.nth,
        Vec3.setNth, fdiv, INF_F, Real.sqrt_one, Fin.ext_iff]
  · refine c7_min_distance_guard.2.2.2 triUnit rayTriHit ⟨5, 5, 5⟩ ?_ ?_
    · norm_num [triT, triUnit, rayTriHit, Vec3.dot, fdiv]
    · refine ⟨?_, ?_, ?_, ?_, ?_, ?_, ?_⟩ <;>
        norm_num [triS1, triS2, triS3, triT, triP, triArea, triUnit, rayTriHit,
          Vec3.dot, Vec3.cross, Vec3.length, fdiv, Real.sqrt_one,
          sqrt_eval (a := (9 : ℝ) / 25) (b := 3 / 5) (by norm_num) (by norm_num),
          sqrt_eval (a := (1 : ℝ) / 25) (b := 1 / 5) (by norm_num) (by norm_num),
          sqrt_eval (a := (4 : ℝ)) (b := 2) (by norm_num) (by norm_num)]

/-- C6 counterexample: on a triangle instance translated by (0,0,3), the
source's triIntersectionTest — which takes no instance transforms at all —
returns (1, (0,0,1)) for the interior ray, while the transform scheme the
claim describes (modelled by triIntersectionTestSpec, which does map the
ray through the instance's inverse transform and the hit back through the
transform and inverse-transpose) mandates (4, (0,0,1)).  The triangle test
therefore does not transform the ray into the instance's local space. -/
theorem c6_counterexample :
    triIntersectionTest triUnit rayTriHit ⟨5, 5, 5⟩ = (1, ⟨0, 0, 1⟩) ∧
    triIntersectionTestSpec gTranslateZ3 triUnit rayTriHit ⟨5, 5, 5⟩ = (4, ⟨0, 0, 1⟩) ∧
    triIntersectionTest triUnit rayTriHit ⟨5, 5, 5⟩ ≠
      triIntersectionTestSpec gTranslateZ3 triUnit rayTriHit ⟨5, 5, 5⟩ := by
  have h1 : triIntersectionTest triUnit rayTriHit ⟨5, 5, 5⟩ = (1, ⟨0, 0, 1⟩) := by
    norm_num [triIntersectionTest, triAccept, triT, triP, triArea, triS1, triS2, triS3,
      triUnit, rayTriHit, Vec3.dot, Vec3.cross, Vec3.length, fdiv,
      sqrt_eval (a := (9 : ℝ) / 25) (b := 3 / 5) (by norm_num) (by norm_num),
      sqrt_eval (a := (1 : ℝ) / 25) (b := 1 / 5) (by norm_num) (by norm_num),
      sqrt_eval (a := (4 : ℝ)) (b := 2) (by norm_num) (by norm_num),
      Real.sqrt_one]
  have h2 : triIntersectionTestSpec gTranslateZ3 triUnit rayTriHit ⟨5, 5, 5⟩ =
      (4, ⟨0, 0, 1⟩) := by
    norm_num [triIntersectionTestSpec, worldToLocalRay, multiplyMV, Mat4.mulVec, vec4of,
      localPointToWorld, localNormalToWorld, gTranslateZ3, triUnit, rayTriHit,
      Vec3.dot, Vec3.cross, Vec3.length, Vec3.normalize, fdiv,
      sqrt_eval (a := (9 : ℝ) / 25) (b := 3 / 5) (by norm_num) (by norm_num),
      sqrt_eval (a := (1 : ℝ) / 25) (b := 1 / 5) (by norm_num) (by norm_num),
      sqrt_eval (a := (4 : ℝ)) (b := 2) (by norm_num) (by norm_num),
      sqrt_eval (a := (16 : ℝ)) (b := 4) (by norm_num) (by norm_num),
      Real.sqrt_one]
  refine ⟨h1, h2, ?_⟩
  intro hc
  rw [h1, h2] at hc
  have hfst : (1 : ℝ) = 4 := congrArg Prod.fst hc
  norm_num at hfst

/-- C6 as amended: the sphere, box and square-plane tests each factor
exactly as the claim describes — the world ray is mapped into local space
by the instance's inverse transform (worldToLocalRay), the canonical
equation is solved there (the local solvers), and on a hit the local point
is mapped back with the transform matrix and the local normal with the
inverse-transpose matrix; the triangle test (see the counterexample) does
not participate in this pattern. -/
theorem c6_transform_pattern : ∀ g r n,
    (sphereIntersectionTest g r n =
      match sphereLocalT (worldToLocalRay g r) with
      | none => (MAX_INTERSECT_DIST, n)
      | some t =>
        (Vec3.length (r.origin - localPointToWorld g (getPointOnRay (worldToLocalRay g r) t)),
         localNormalToWorld g (getPointOnRay (worldToLocalRay g r) t))) ∧
    (boxIntersectionTest g r n =
      match boxLocalSolve (worldToLocalRay g r) with
      | none => (MAX_INTERSECT_DIST, n)
      | some p =>
        (Vec3.length (r.origin - localPointToWorld g (getPointOnRay (worldToLocalRay g r) p.1)),
         localNormalToWorld g p.2)) ∧
    (squareplaneIntersectionTest g r n =
      match squareplaneLocalSolve (worldToLocalRay g r) with
      | none => (MAX_INTERSECT_DIST, n)
      | some p =>
        (Vec3.length (r.origin - localPointToWorld g p), localNormalToWorld g ⟨0, 0, 1⟩)) := by
  intro g r n
  refine ⟨?_, ?_, ?_⟩
  · simp only [sphereIntersectionTest, sphereLocalT, sphereRadicand, sphereT1, sphereT2,
      sphereB]
    split_ifs <;> rfl
  · simp only [boxIntersectionTest, boxLocalSolve]
    split_ifs <;> rfl
  · simp only [squareplaneIntersectionTest, squareplaneLocalSolve, squareplaneT]
    split_ifs <;> rfl

/-- C9: with identity instance transforms, the canonical sphere hit by the
ray from (0,0,-2) toward +z is at distance 1.5 with normal (0,0,-1), and
the canonical box hit by the ray from (2,0,0) toward -x is at distance 1.5
with normal (1,0,0), matching the spec's closed-form examples exactly. -/
theorem c9_analytic_hits :
    sphereIntersectionTest gIdentity raySphereAnalytic ⟨5, 5, 5⟩ = (1.5, ⟨0, 0, -1⟩) ∧
    boxIntersectionTest gIdentity rayBoxAnalytic ⟨5, 5, 5⟩ = (1.5, ⟨1, 0, 0⟩) := by
  constructor
  · norm_num [sphereIntersectionTest, sphereRadicand, sphereT1, sphereT2, sphereB,
      worldToLocalRay, multiplyMV, Mat4.mulVec, vec4of, gIdentity, mat4Id,
      raySphereAnalytic, Vec3.dot, Vec3.normalize, Vec3.length, fdiv, getPointOnRay,
      MAX_INTERSECT_DIST, Real.sqrt_one,
      sqrt_eval (a := (4 : ℝ)) (b := 2) (by norm_num) (by norm_num),
      sqrt_eval (a := (9 : ℝ)) (b := 3) (by norm_num) (by norm_num)]
  · norm_num [boxIntersectionTest, boxSlabs, slabStep, worldToLocalRay, multiplyMV,
      Mat4.mulVec, vec4of, gIdentity, mat4Id, rayBoxAnalytic, Vec3.dot, Vec3.normalize,
      Vec3.length, Vec3.nth, Vec3.setNth, fdiv, getPointOnRay, MAX_INTERSECT_DIST,
      INF_F, Real.sqrt_one, Fin.ext_iff,
      sqrt_eval (a := (4 : ℝ)) (b := 2) (by norm_num) (by norm_num),
      sqrt_eval (a := (9 : ℝ)) (b := 3) (by norm_num) (by norm_num)]

end

end PathTracer
